import Mathlib

/-!
Shallow embedding of `module/zfs/zpl_file.c` (ZFS-on-Linux VFS glue layer):
the I/O vector adapter (`zpl_read_common` / `zpl_write_common` and the
`zpl_read` / `zpl_write` entry points), the page populate/flush paths
(`zpl_readpage`, `zpl_putpage`, `zpl_readpages`), the mmap establishment path
(`zpl_mmap`), and the attribute-flag ioctl paths (`zpl_get_ioctl_flags`,
`zpl_ioctl_getflags`, `zpl_ioctl_setflags`, `zpl_ioctl`).

The storage engine (`zfs_read`, `zfs_write`, `zfs_getpage`, `zfs_putpage`,
`zfs_map`, `zfs_getflags`, `zfs_setattr`) and host primitives
(`generic_file_mmap`, `copy_to_user`, `copy_from_user`, `kmalloc`) are external
collaborators; they are modelled as explicit parameters carrying their return
values, exactly where the C code consumes those values.  Page-state and
lock/unlock primitives are modelled as an event trace, so that ordering and
multiplicity of the calls the C code makes are visible to the theorems.
-/

/-! ## Error numbers (Linux errno values, asm-generic/errno) -/

def ENOMEM : Int := 12

def EACCES : Int := 13

def ENOTTY : Int := 25

def EOPNOTSUPP : Int := 95

/-- Largest representable file offset (Solaris `MAXOFFSET_T`, `2^63 - 1`):
the "unbounded" upper limit installed into `uio.uio_limit`. -/
def MAXOFFSET_T : Int := 2 ^ 63 - 1

/-! ## uio segment kinds (`uio_seg_t`) -/

def UIO_USERSPACE : Nat := 0

def UIO_SYSSPACE : Nat := 1

/-! ## I/O vector adapter: `zpl_read_common` / `zpl_write_common` (lines 111-195)

`iov_base` is an untyped pointer (memory layout), so only `iov_len` is carried.
The engine (`zfs_read` / `zfs_write`) is a parameter: it consumes the built
`uio_t` and yields its signed return status together with the residual it
leaves in `uio.uio_resid` (bytes not consumed; per the uio contract the engine
only ever decreases the residual from its initial value). -/

structure iovec where
  iov_len : Nat
deriving DecidableEq, Repr

structure uio_t where
  uio_iov : List iovec
  uio_resid : Nat
  uio_iovcnt : Nat
  uio_loffset : Int
  uio_limit : Int
  uio_segflg : Nat
deriving DecidableEq, Repr

/-- Embeds the uio construction statements shared verbatim by
`zpl_read_common` (lines 119-127) and `zpl_write_common` (lines 162-170). -/
def zpl_build_uio (len : Nat) (pos : Int) (segment : Nat) : uio_t :=
  { uio_iov := [{ iov_len := len }]
    uio_resid := len
    uio_iovcnt := 1
    uio_loffset := pos
    uio_limit := MAXOFFSET_T
    uio_segflg := segment }

/-- `zpl_read_common` (lines 111-134): build one uio, delegate to `zfs_read`,
negate its status; a negative result is returned verbatim, otherwise
`len - uio_resid` is returned. -/
def zpl_read_common (zfs_read : uio_t → Int × Nat) (len : Nat) (pos : Int)
    (segment : Nat) : Int :=
  let u := zpl_build_uio len pos segment
  let r := zfs_read u
  let error := -r.1
  if error < 0 then error
  else (len : Int) - (r.2 : Int)

/-- `zpl_write_common` (lines 154-177): identical shape, delegating to
`zfs_write`. -/
def zpl_write_common (zfs_write : uio_t → Int × Nat) (len : Nat) (pos : Int)
    (segment : Nat) : Int :=
  let u := zpl_build_uio len pos segment
  let r := zfs_write u
  let error := -r.1
  if error < 0 then error
  else (len : Int) - (r.2 : Int)

/-- `zpl_read` (lines 136-152): returns the transfer result together with the
updated `*ppos`; the position advances only on a non-negative result. -/
def zpl_read (zfs_read : uio_t → Int × Nat) (len : Nat) (ppos : Int) :
    Int × Int :=
  let rd := zpl_read_common zfs_read len ppos UIO_USERSPACE
  if rd < 0 then (rd, ppos)
  else (rd, ppos + rd)

/-- `zpl_write` (lines 179-195): returns the transfer result together with the
updated `*ppos`; the position advances only on a non-negative result. -/
def zpl_write (zfs_write : uio_t → Int × Nat) (len : Nat) (ppos : Int) :
    Int × Int :=
  let wr := zpl_write_common zfs_write len ppos UIO_USERSPACE
  if wr < 0 then (wr, ppos)
  else (wr, ppos + wr)

/-! ## Page populate/flush paths: `zpl_readpage`, `zpl_putpage` (lines 326-370)

Page-lifecycle primitives are host-owned atomics; the embedding records the
exact sequence of calls the C body makes, so that the theorems can speak about
the number of `unlock_page` calls and about which marking calls precede the
unlock. -/

inductive PageOp where
  | setPageError
  | clearPageError
  | setPageUptodate
  | clearPageUptodate
  | flushDcachePage
  | unlockPage
deriving DecidableEq, Repr

/-- `zpl_readpage` (lines 326-350): `error = -zfs_getpage(ip, pl, 1)`; on
failure mark error and clear uptodate, on success clear error, mark uptodate,
flush the CPU data cache; then a single `unlock_page`, then return `error`.
The parameter is the return value of `zfs_getpage`. -/
def zpl_readpage (zfs_getpage_ret : Int) : Int × List PageOp :=
  let error := -zfs_getpage_ret
  if error ≠ 0 then
    (error, [PageOp.setPageError, PageOp.clearPageUptodate, PageOp.unlockPage])
  else
    (error, [PageOp.clearPageError, PageOp.setPageUptodate,
             PageOp.flushDcachePage, PageOp.unlockPage])

/-- `zpl_putpage` (lines 352-370): identical marking/unlock structure around
`error = -zfs_putpage(pp, wbc, data)`. -/
def zpl_putpage (zfs_putpage_ret : Int) : Int × List PageOp :=
  let error := -zfs_putpage_ret
  if error ≠ 0 then
    (error, [PageOp.setPageError, PageOp.clearPageUptodate, PageOp.unlockPage])
  else
    (error, [PageOp.clearPageError, PageOp.setPageUptodate,
             PageOp.flushDcachePage, PageOp.unlockPage])

/-- Prefix of a page-op trace strictly before the first `unlock_page` call. -/
def beforeUnlock (t : List PageOp) : List PageOp :=
  t.takeWhile (fun op => op != PageOp.unlockPage)

/-! ## Batched populate path: `zpl_readpages` (lines 263-315) -/

/-- State of one OS-cache page as this layer can affect it: the lock bit, the
uptodate bit and the error bit.  List membership is represented by which of
the two result lists of `zpl_readpages` the page ends up in. -/
structure PageState where
  locked : Bool
  uptodate : Bool
  error : Bool
deriving DecidableEq, Repr

/-- `pages_vector_from_list` (lines 263-281): the host supplies the page list
in reverse order; walking it in reverse (`list_for_each_entry_reverse`) yields
the forward-ordered array handed to the engine.  Allocation failure of the
vector itself is threaded through `zpl_readpages`'s `allocOk` parameter. -/
def pages_vector_from_list (pages : List PageState) : List PageState :=
  pages.reverse

/-- `zpl_readpages` (lines 283-315).  Result: the return value, the pages
still threaded on the host's input list (unchanged states), and the pages that
were processed (deleted from the list, `SetPageUptodate`, `unlock_page`,
`page_cache_release`; note this path never touches the error bit).  On vector
allocation failure: `-ENOMEM`, list untouched.  On `zfs_getpage` failure
(`goto error`): the negated engine status, list untouched — no page is
unlocked, marked, or removed. -/
def zpl_readpages (allocOk : Bool) (zfs_getpage : List PageState → Int)
    (pages : List PageState) : Int × List PageState × List PageState :=
  if allocOk = false then (-ENOMEM, pages, [])
  else
    let pl := pages_vector_from_list pages
    let error := -(zfs_getpage pl)
    if error ≠ 0 then (error, pages, [])
    else (0, [], pages.map fun p => { p with locked := false, uptodate := true })

/-! ## Mapping establishment: `zpl_mmap` (lines 240-261) -/

inductive MmapEv where
  | zfsMap
  | hostMmap
  | mutexEnter
  | setMapped
  | mutexExit
deriving DecidableEq, Repr

/-- The znode fields `zpl_mmap` touches: the `z_is_mapped` flag (an `int` used
as a boolean, set to 1 under `z_lock`).  `z_is_mapped` is written nowhere else
in this translation unit. -/
structure Znode where
  z_is_mapped : Bool
deriving DecidableEq, Repr

/-- `zpl_mmap` (lines 240-261): `error = -zfs_map(...)`, abort on failure
before `generic_file_mmap`; abort on host failure before touching the znode;
otherwise take `z_lock`, set `z_is_mapped = 1`, drop `z_lock`, return 0.
Parameters carry the return values of `zfs_map` and `generic_file_mmap`; the
event trace records the calls made, in order. -/
def zpl_mmap (zfs_map_ret : Int) (generic_file_mmap_ret : Int) (zp : Znode) :
    Int × Znode × List MmapEv :=
  let error := -zfs_map_ret
  if error ≠ 0 then (error, zp, [MmapEv.zfsMap])
  else if generic_file_mmap_ret ≠ 0 then
    (generic_file_mmap_ret, zp, [MmapEv.zfsMap, MmapEv.hostMmap])
  else
    (0, { zp with z_is_mapped := true },
     [MmapEv.zfsMap, MmapEv.hostMmap, MmapEv.mutexEnter, MmapEv.setMapped,
      MmapEv.mutexExit])

/-! ## Attribute flag translator (lines 390-467)

External flag constants from the Linux `FS_*_FL` space (`include/linux/fs.h`,
an external collaborator of this unit), as consumed by the C code. -/

def FS_SYNC_FL : Nat := 0x00000008

def FS_IMMUTABLE_FL : Nat := 0x00000010

def FS_APPEND_FL : Nat := 0x00000020

def FS_NODUMP_FL : Nat := 0x00000040

def FS_NOATIME_FL : Nat := 0x00000080

def FS_DIRSYNC_FL : Nat := 0x00010000

def FS_FL_USER_VISIBLE : Nat := 0x0003DFFF

def FS_FL_USER_MODIFIABLE : Nat := 0x000380FF

/-- Internal ZFS attribute-flag bits for immutable, append-only and no-dump,
as declared for `zp_flags` (`sys/zfs_znode.h`, which this unit includes). -/
def ZFS_IMMUTABLE : Nat := 0x0000001000000000

def ZFS_APPENDONLY : Nat := 0x0000004000000000

def ZFS_NODUMP : Nat := 0x0000008000000000

/-- Modelled from the spec: `ZFS_DIRSYNC`, `ZFS_SYNC` and `ZFS_NOATIME` are
the three internal bits "added for Linux compatibility"; the header declaring
their numeric values (`sys/zfs_znode.h`) is not under `src/`.  The spec only
requires them to be distinct packed bits, disjoint from the other flags. -/
def ZFS_DIRSYNC : Nat := 0x0000100000000000

def ZFS_SYNC : Nat := 0x0000200000000000

def ZFS_NOATIME : Nat := 0x0000400000000000

/-- Bitwise complement at the width of a C `unsigned int` (32 bits), used to
embed `~MASK` in the `flags & ~(MASK)` tests of `zpl_ioctl_setflags`. -/
def compl32 (m : Nat) : Nat := m ^^^ (2 ^ 32 - 1)

/-- `zpl_get_ioctl_flags` (lines 400-424): test each of the six recognized
internal bits independently, accumulate the matching external bit, and mask
the result with `FS_FL_USER_VISIBLE`. -/
def zpl_get_ioctl_flags (zfs_flags : Nat) : Nat :=
  let f0 : Nat := 0
  let f1 := if zfs_flags &&& ZFS_IMMUTABLE ≠ 0 then f0 ||| FS_IMMUTABLE_FL else f0
  let f2 := if zfs_flags &&& ZFS_APPENDONLY ≠ 0 then f1 ||| FS_APPEND_FL else f1
  let f3 := if zfs_flags &&& ZFS_NODUMP ≠ 0 then f2 ||| FS_NODUMP_FL else f2
  let f4 := if zfs_flags &&& ZFS_DIRSYNC ≠ 0 then f3 ||| FS_DIRSYNC_FL else f3
  let f5 := if zfs_flags &&& ZFS_SYNC ≠ 0 then f4 ||| FS_SYNC_FL else f4
  let f6 := if zfs_flags &&& ZFS_NOATIME ≠ 0 then f5 ||| FS_NOATIME_FL else f5
  f6 &&& FS_FL_USER_VISIBLE

/-- Modelled from the spec: the inverse direction of the flag correspondence —
the "corresponding internal flags" that a completed `setFlags` would hand to
the engine's attribute-set primitive for each recognized external bit.  The
engine-side application (`zfs_setattr`'s body) is not under `src/`; this is
the bit-for-bit correspondence the spec's contract B names. -/
def zpl_ioctl_flags_to_zfs (ioctl_flags : Nat) : Nat :=
  let g0 : Nat := 0
  let g1 := if ioctl_flags &&& FS_IMMUTABLE_FL ≠ 0 then g0 ||| ZFS_IMMUTABLE else g0
  let g2 := if ioctl_flags &&& FS_APPEND_FL ≠ 0 then g1 ||| ZFS_APPENDONLY else g1
  let g3 := if ioctl_flags &&& FS_NODUMP_FL ≠ 0 then g2 ||| ZFS_NODUMP else g2
  let g4 := if ioctl_flags &&& FS_DIRSYNC_FL ≠ 0 then g3 ||| ZFS_DIRSYNC else g3
  let g5 := if ioctl_flags &&& FS_SYNC_FL ≠ 0 then g4 ||| ZFS_SYNC else g4
  let g6 := if ioctl_flags &&& FS_NOATIME_FL ≠ 0 then g5 ||| ZFS_NOATIME else g5
  g6

/-- The six external flag bits recognized by `zpl_ioctl_setflags`'s support
check (lines 460-461), in the mask the C code spells inline. -/
def ZPL_SUPPORTED_FL : Nat :=
  FS_IMMUTABLE_FL ||| FS_APPEND_FL ||| FS_NODUMP_FL |||
    FS_DIRSYNC_FL ||| FS_SYNC_FL ||| FS_NOATIME_FL

/-! ## ioctl get-flags path: `zpl_ioctl_getflags` (lines 426-443) -/

/-- Return values of the external calls `zpl_ioctl_getflags` makes:
`zfs_getflags` (signed status, plus the flag word it produces on success) and
`copy_to_user` (number of bytes NOT copied; 0 means success). -/
structure GetflagsEnv where
  zfs_getflags_ret : Int
  zfs_flags : Nat
  copy_to_user_ret : Nat
deriving DecidableEq, Repr

/-- `zpl_ioctl_getflags` (lines 426-443): `error = -zfs_getflags(...)`,
returned on failure; otherwise translate the flags and return the raw
`copy_to_user` result.  The second component records the translated word
handed to `copy_to_user` (0 when that point is never reached). -/
def zpl_ioctl_getflags (env : GetflagsEnv) : Int × Nat :=
  let error := -env.zfs_getflags_ret
  if error ≠ 0 then (error, 0)
  else
    let ioctl_flags := zpl_get_ioctl_flags env.zfs_flags
    ((env.copy_to_user_ret : Int), ioctl_flags)

/-! ## ioctl set-flags path: `zpl_ioctl_setflags` (lines 446-467) -/

/-- Return values of the external calls `zpl_ioctl_setflags` makes:
`copy_from_user` (bytes not copied; 0 means success), the
`is_owner_or_cap` predicate, and `zfs_setattr`'s signed status. -/
structure SetflagsEnv where
  copy_from_user_ret : Nat
  is_owner_or_cap : Bool
  zfs_setattr_ret : Int
deriving DecidableEq, Repr

/-- Engine-visible attribute state of the file object (`zp_flags`). -/
structure FileObjState where
  zfs_flags : Nat
deriving DecidableEq, Repr

/-- `zpl_ioctl_setflags` (lines 446-467): copy the requested word in; reject
with `-EACCES` if it holds a bit outside `FS_FL_USER_MODIFIABLE` or the caller
is neither owner nor capable; reject with `-EOPNOTSUPP` if it holds a bit
outside the six recognized bits; otherwise `error = -zfs_setattr()`.  The C
call `zfs_setattr()` passes no object and no flags (the comment above it,
"lets update setattr to take xvattrs again", marks it as unfinished), so the
file object's attribute state is returned unchanged on every path. -/
def zpl_ioctl_setflags (flags : Nat) (env : SetflagsEnv) (obj : FileObjState) :
    Int × FileObjState :=
  if (env.copy_from_user_ret : Int) ≠ 0 then ((env.copy_from_user_ret : Int), obj)
  else if flags &&& compl32 FS_FL_USER_MODIFIABLE ≠ 0 ∨ env.is_owner_or_cap = false then
    (-EACCES, obj)
  else if flags &&& compl32 ZPL_SUPPORTED_FL ≠ 0 then
    (-EOPNOTSUPP, obj)
  else
    (-env.zfs_setattr_ret, obj)

/-! ## ioctl dispatch: `zpl_ioctl` (lines 469-480) -/

/-- Modelled from the spec: the two recognized control codes ("get flags" and
"set flags"); the header assigning their numeric values (`sys/zpl.h`) is not
under `src/`.  The spec needs only two distinct codes; the values used are the
conventional `FS_IOC_GETFLAGS` / `FS_IOC_SETFLAGS` encodings. -/
def ZFS_IOC_GETFLAGS : Nat := 0x80086601

def ZFS_IOC_SETFLAGS : Nat := 0x40086602

/-- `zpl_ioctl` (lines 469-480): dispatch on the command code to the get-flags
and set-flags paths; any other code returns `-ENOTTY`. -/
def zpl_ioctl (cmd : Nat) (genv : GetflagsEnv) (flags : Nat)
    (senv : SetflagsEnv) (obj : FileObjState) : Int :=
  if cmd = ZFS_IOC_GETFLAGS then (zpl_ioctl_getflags genv).1
  else if cmd = ZFS_IOC_SETFLAGS then (zpl_ioctl_setflags flags senv obj).1
  else -ENOTTY

/-! ## Theorems -/

/-- Claim C1: for every single-page populate call (`zpl_readpage`) and every
single-page flush call (`zpl_putpage`), whatever the engine status, the page
is unlocked exactly once by the time the call returns; on engine success the
error state is cleared, the page is marked uptodate and the CPU data cache is
flushed, all before the unlock; on engine failure the page is marked error and
uptodate is cleared, both before the unlock. -/
theorem spec_c1_single_page_unlock_contract (r : Int) :
    ((zpl_readpage r).2.count PageOp.unlockPage = 1 ∧
     (zpl_putpage r).2.count PageOp.unlockPage = 1) ∧
    (r = 0 →
      (zpl_readpage r).1 = 0 ∧
      PageOp.clearPageError ∈ beforeUnlock (zpl_readpage r).2 ∧
      PageOp.setPageUptodate ∈ beforeUnlock (zpl_readpage r).2 ∧
      PageOp.flushDcachePage ∈ beforeUnlock (zpl_readpage r).2 ∧
      (zpl_putpage r).1 = 0 ∧
      PageOp.clearPageError ∈ beforeUnlock (zpl_putpage r).2 ∧
      PageOp.setPageUptodate ∈ beforeUnlock (zpl_putpage r).2 ∧
      PageOp.flushDcachePage ∈ beforeUnlock (zpl_putpage r).2) ∧
    (r ≠ 0 →
      (zpl_readpage r).1 = -r ∧
      PageOp.setPageError ∈ beforeUnlock (zpl_readpage r).2 ∧
      PageOp.clearPageUptodate ∈ beforeUnlock (zpl_readpage r).2 ∧
      (zpl_putpage r).1 = -r ∧
      PageOp.setPageError ∈ beforeUnlock (zpl_putpage r).2 ∧
      PageOp.clearPageUptodate ∈ beforeUnlock (zpl_putpage r).2) := by
  by_cases h : r = 0
  · subst h
    refine ⟨by decide, fun _ => by decide, fun hc => absurd rfl hc⟩
  · have hn : -r ≠ 0 := neg_ne_zero.mpr h
    refine ⟨?_, fun hc => absurd hc h, fun _ => ?_⟩
    · constructor <;> simp [zpl_readpage, zpl_putpage, hn]
    · refine ⟨?_, ?_, ?_, ?_, ?_, ?_⟩ <;>
        simp [zpl_readpage, zpl_putpage, beforeUnlock, hn]

/-- Witness for C1: instantiation at an engine success (0) and an engine
failure (7). -/
theorem spec_c1_single_page_unlock_contract_witness :
    (zpl_readpage 0).1 = 0 ∧
    PageOp.flushDcachePage ∈ beforeUnlock (zpl_readpage 0).2 ∧
    (zpl_putpage 7).1 = -7 ∧
    PageOp.setPageError ∈ beforeUnlock (zpl_putpage 7).2 := by
  have h0 := spec_c1_single_page_unlock_contract 0
  have h7 := spec_c1_single_page_unlock_contract 7
  exact ⟨(h0.2.1 rfl).1, (h0.2.1 rfl).2.2.2.1,
    (h7.2.2 (by decide)).2.2.2.1, (h7.2.2 (by decide)).2.2.2.2.1⟩

/-- Claim C2: on a non-empty page list, if the single batch-level engine fill
(`zfs_getpage`) fails, `zpl_readpages` returns that engine error (negated per
the sign convention) and leaves the host list exactly as it was: every page
still listed with unchanged lock/uptodate/error state, and no page processed
(unlocked, marked, or removed). -/
theorem spec_c2_batch_failure_leaves_pages_locked
    (zfs_getpage : List PageState → Int) (pages : List PageState)
    (hne : pages ≠ [])
    (hfail : zfs_getpage (pages_vector_from_list pages) ≠ 0) :
    zpl_readpages true zfs_getpage pages =
      (-(zfs_getpage (pages_vector_from_list pages)), pages, []) := by
  have hn : -(zfs_getpage (pages_vector_from_list pages)) ≠ 0 :=
    neg_ne_zero.mpr hfail
  simp [zpl_readpages, hn]

/-- Witness for C2: one locked, not-uptodate, not-error page and an engine
fill that fails with status 5. -/
theorem spec_c2_batch_failure_leaves_pages_locked_witness :
    ([⟨true, false, false⟩] : List PageState) ≠ [] ∧
    (fun _ : List PageState => (5 : Int))
        (pages_vector_from_list [⟨true, false, false⟩]) ≠ 0 ∧
    zpl_readpages true (fun _ : List PageState => (5 : Int))
        [⟨true, false, false⟩] = (-5, [⟨true, false, false⟩], []) := by
  refine ⟨by decide, by decide, ?_⟩
  exact spec_c2_batch_failure_leaves_pages_locked
    (fun _ : List PageState => (5 : Int)) [⟨true, false, false⟩]
    (by decide) (by decide)

/-- Claim C3: the adapter builds exactly one I/O vector, with residual
initialized to the requested length, the given offset, and the unbounded
limit `MAXOFFSET_T`; on engine failure the (sign-converted) engine error is
returned with no partial-byte-count computation; on engine success it returns
`length - residual`, which is a non-negative short count whenever the residual
does not exceed the length. -/
theorem spec_c3_uio_adapter_contract (eng : uio_t → Int × Nat) (len : Nat)
    (pos : Int) (seg : Nat) :
    ((zpl_build_uio len pos seg).uio_iovcnt = 1 ∧
     (zpl_build_uio len pos seg).uio_iov = [{ iov_len := len }] ∧
     (zpl_build_uio len pos seg).uio_resid = len ∧
     (zpl_build_uio len pos seg).uio_loffset = pos ∧
     (zpl_build_uio len pos seg).uio_limit = MAXOFFSET_T) ∧
    (0 < (eng (zpl_build_uio len pos seg)).1 →
      zpl_read_common eng len pos seg = -(eng (zpl_build_uio len pos seg)).1 ∧
      zpl_write_common eng len pos seg = -(eng (zpl_build_uio len pos seg)).1) ∧
    ((eng (zpl_build_uio len pos seg)).1 = 0 →
      zpl_read_common eng len pos seg =
        (len : Int) - ((eng (zpl_build_uio len pos seg)).2 : Int) ∧
      zpl_write_common eng len pos seg =
        (len : Int) - ((eng (zpl_build_uio len pos seg)).2 : Int) ∧
      ((eng (zpl_build_uio len pos seg)).2 ≤ len →
        0 ≤ zpl_read_common eng len pos seg)) := by
  refine ⟨⟨rfl, rfl, rfl, rfl, rfl⟩, ?_, ?_⟩
  · intro h
    have hlt : -(eng (zpl_build_uio len pos seg)).1 < 0 := by omega
    constructor <;> simp [zpl_read_common, zpl_write_common, hlt]
  · intro h
    have hnlt : ¬ -(eng (zpl_build_uio len pos seg)).1 < 0 := by omega
    refine ⟨?_, ?_, ?_⟩
    · simp [zpl_read_common, hnlt]
    · simp [zpl_write_common, hnlt]
    · intro hres
      simp [zpl_read_common, hnlt]
      omega

/-- Witness for C3: an engine failure with status 7 (both directions return
-7) and an engine success leaving residual 1 of 4 (returns 3). -/
theorem spec_c3_uio_adapter_contract_witness :
    zpl_read_common (fun _ : uio_t => ((7 : Int), (0 : Nat))) 4 2 UIO_USERSPACE = -7 ∧
    zpl_write_common (fun _ : uio_t => ((7 : Int), (0 : Nat))) 4 2 UIO_USERSPACE = -7 ∧
    zpl_read_common (fun _ : uio_t => ((0 : Int), (1 : Nat))) 4 2 UIO_USERSPACE = 3 := by
  have h7 := (spec_c3_uio_adapter_contract
    (fun _ : uio_t => ((7 : Int), (0 : Nat))) 4 2 UIO_USERSPACE).2.1 (by decide)
  have h0 := (spec_c3_uio_adapter_contract
    (fun _ : uio_t => ((0 : Int), (1 : Nat))) 4 2 UIO_USERSPACE).2.2 rfl
  exact ⟨h7.1, h7.2, by simpa using h0.1⟩

/-- Claim C4: `zpl_read` / `zpl_write` advance the file position by exactly
the returned byte count, and only on success; on an error return the position
is unchanged.  A 4096-byte transfer against a 1000-byte remaining region
(engine succeeds leaving residual 3096) returns 1000 with no error and
advances the position by exactly 1000. -/
theorem spec_c4_offset_advances_by_returned_count (eng : uio_t → Int × Nat)
    (len : Nat) (pos : Int) :
    (0 ≤ (zpl_read eng len pos).1 →
      (zpl_read eng len pos).2 = pos + (zpl_read eng len pos).1) ∧
    ((zpl_read eng len pos).1 < 0 → (zpl_read eng len pos).2 = pos) ∧
    (0 ≤ (zpl_write eng len pos).1 →
      (zpl_write eng len pos).2 = pos + (zpl_write eng len pos).1) ∧
    ((zpl_write eng len pos).1 < 0 → (zpl_write eng len pos).2 = pos) ∧
    zpl_read (fun _ : uio_t => ((0 : Int), (3096 : Nat))) 4096 pos =
      (1000, pos + 1000) ∧
    zpl_write (fun _ : uio_t => ((0 : Int), (3096 : Nat))) 4096 pos =
      (1000, pos + 1000) := by
  refine ⟨?_, ?_, ?_, ?_, ?_, ?_⟩
  · intro h
    by_cases hc : zpl_read_common eng len pos UIO_USERSPACE < 0
    · exfalso
      simp [zpl_read, hc] at h
      omega
    · simp [zpl_read, hc]
  · intro h
    by_cases hc : zpl_read_common eng len pos UIO_USERSPACE < 0
    · simp [zpl_read, hc]
    · exfalso
      simp [zpl_read, hc] at h
  · intro h
    by_cases hc : zpl_write_common eng len pos UIO_USERSPACE < 0
    · exfalso
      simp [zpl_write, hc] at h
      omega
    · simp [zpl_write, hc]
  · intro h
    by_cases hc : zpl_write_common eng len pos UIO_USERSPACE < 0
    · simp [zpl_write, hc]
    · exfalso
      simp [zpl_write, hc] at h
  · simp [zpl_read, zpl_read_common]
  · simp [zpl_write, zpl_write_common]

/-- Witness for C4: the success branch applied at position 0 with the
short-transfer engine, together with the concrete short-transfer result. -/
theorem spec_c4_offset_advances_by_returned_count_witness :
    (zpl_read (fun _ : uio_t => ((0 : Int), (3096 : Nat))) 4096 0).2 =
      0 + (zpl_read (fun _ : uio_t => ((0 : Int), (3096 : Nat))) 4096 0).1 ∧
    zpl_read (fun _ : uio_t => ((0 : Int), (3096 : Nat))) 4096 0 = (1000, 1000) ∧
    zpl_write (fun _ : uio_t => ((0 : Int), (3096 : Nat))) 4096 0 = (1000, 1000) := by
  have h := spec_c4_offset_advances_by_returned_count
    (fun _ : uio_t => ((0 : Int), (3096 : Nat))) 4096 0
  exact ⟨h.1 (by decide), by simpa using h.2.2.2.2.1, by simpa using h.2.2.2.2.2⟩

/-- Claim C5: in `zpl_ioctl_setflags` the permission check precedes the
support check: with the copy-in successful, a requester who is neither owner
nor capable and who asks for a bit outside the six recognized bits gets
`-EACCES`, never `-EOPNOTSUPP`; and `-EOPNOTSUPP` can only be returned once
the permission check has passed (caller is owner-or-capable and the word is
within the user-modifiable mask). -/
theorem spec_c5_permission_check_precedes_support_check (flags : Nat)
    (env : SetflagsEnv) (obj : FileObjState)
    (hcopy : env.copy_from_user_ret = 0) :
    (env.is_owner_or_cap = false → flags &&& compl32 ZPL_SUPPORTED_FL ≠ 0 →
      (zpl_ioctl_setflags flags env obj).1 = -EACCES ∧
      (zpl_ioctl_setflags flags env obj).1 ≠ -EOPNOTSUPP) ∧
    ((zpl_ioctl_setflags flags env obj).1 = -EOPNOTSUPP →
      env.is_owner_or_cap = true ∧
      flags &&& compl32 FS_FL_USER_MODIFIABLE = 0) := by
  constructor
  · intro how _hbit
    have hperm : flags &&& compl32 FS_FL_USER_MODIFIABLE ≠ 0 ∨
        env.is_owner_or_cap = false := Or.inr how
    constructor
    · simp [zpl_ioctl_setflags, hcopy, hperm]
    · simp [zpl_ioctl_setflags, hcopy, hperm, EACCES, EOPNOTSUPP]
  · intro h
    by_cases hperm : flags &&& compl32 FS_FL_USER_MODIFIABLE ≠ 0 ∨
        env.is_owner_or_cap = false
    · exfalso
      simp [zpl_ioctl_setflags, hcopy, hperm, EACCES, EOPNOTSUPP] at h
    · rw [not_or] at hperm
      obtain ⟨ha, hb⟩ := hperm
      constructor
      · cases hbo : env.is_owner_or_cap
        · exact absurd hbo hb
        · rfl
      · omega

/-- Witness for C5: a non-owner, non-capable caller requesting bit 17
(`FS_TOPDIR_FL`, outside the six recognized bits) receives `-EACCES`. -/
theorem spec_c5_permission_check_precedes_support_check_witness :
    ({ copy_from_user_ret := 0, is_owner_or_cap := false,
       zfs_setattr_ret := 0 } : SetflagsEnv).copy_from_user_ret = 0 ∧
    (0x20000 : Nat) &&& compl32 ZPL_SUPPORTED_FL ≠ 0 ∧
    (zpl_ioctl_setflags 0x20000
      { copy_from_user_ret := 0, is_owner_or_cap := false, zfs_setattr_ret := 0 }
      { zfs_flags := 0 }).1 = -EACCES := by
  refine ⟨rfl, by decide, ?_⟩
  exact ((spec_c5_permission_check_precedes_support_check 0x20000
    { copy_from_user_ret := 0, is_owner_or_cap := false, zfs_setattr_ret := 0 }
    { zfs_flags := 0 } rfl).1 rfl (by decide)).1

/-- Claim C6 (divergence witness): a request that passes both checks — owner,
copy-in successful, requested word `FS_IMMUTABLE_FL`, engine attribute-set
reporting success — returns 0 from `zpl_ioctl_setflags`, yet the file object
comes back with `ZFS_IMMUTABLE` still clear: the C code invokes
`zfs_setattr()` with no arguments, so the corresponding internal flags are
never applied. -/
theorem spec_c6_setattr_stub_applies_no_flags :
    (zpl_ioctl_setflags FS_IMMUTABLE_FL
      { copy_from_user_ret := 0, is_owner_or_cap := true, zfs_setattr_ret := 0 }
      { zfs_flags := 0 }).1 = 0 ∧
    ((zpl_ioctl_setflags FS_IMMUTABLE_FL
      { copy_from_user_ret := 0, is_owner_or_cap := true, zfs_setattr_ret := 0 }
      { zfs_flags := 0 }).2.zfs_flags &&& ZFS_IMMUTABLE = 0) := by
  decide

/-- Claim C7: for every internal word composed only of the six recognized
internal bits, translating with `zpl_get_ioctl_flags` yields a word inside
`zpl_ioctl_setflags`'s recognized-bit set, and mapping each external bit back
to its internal counterpart reproduces the original word. -/
theorem spec_c7_flag_round_trip_identity :
    ∀ b1 b2 b3 b4 b5 b6 : Bool,
      zpl_ioctl_flags_to_zfs (zpl_get_ioctl_flags
        ((cond b1 ZFS_IMMUTABLE 0) ||| (cond b2 ZFS_APPENDONLY 0) |||
         (cond b3 ZFS_NODUMP 0) ||| (cond b4 ZFS_DIRSYNC 0) |||
         (cond b5 ZFS_SYNC 0) ||| (cond b6 ZFS_NOATIME 0))) =
        ((cond b1 ZFS_IMMUTABLE 0) ||| (cond b2 ZFS_APPENDONLY 0) |||
         (cond b3 ZFS_NODUMP 0) ||| (cond b4 ZFS_DIRSYNC 0) |||
         (cond b5 ZFS_SYNC 0) ||| (cond b6 ZFS_NOATIME 0)) ∧
      zpl_get_ioctl_flags
        ((cond b1 ZFS_IMMUTABLE 0) ||| (cond b2 ZFS_APPENDONLY 0) |||
         (cond b3 ZFS_NODUMP 0) ||| (cond b4 ZFS_DIRSYNC 0) |||
         (cond b5 ZFS_SYNC 0) ||| (cond b6 ZFS_NOATIME 0)) &&&
          compl32 ZPL_SUPPORTED_FL = 0 := by
  decide

/-- Claim C8: `zpl_mmap` runs the engine's mapping validation first — an
engine failure returns its status with neither the host page-table setup nor
the flag write performed; a host setup failure returns before the flag write;
only after both succeed is `z_is_mapped` set to true, between the mutex enter
and mutex exit events; and `zpl_mmap` never clears an already-set flag
(`z_is_mapped` is written nowhere else in this translation unit). -/
theorem spec_c8_mmap_engine_first_flag_monotone (zr hr : Int) (zp : Znode) :
    (zr ≠ 0 →
      (zpl_mmap zr hr zp).1 = -zr ∧
      MmapEv.hostMmap ∉ (zpl_mmap zr hr zp).2.2 ∧
      MmapEv.setMapped ∉ (zpl_mmap zr hr zp).2.2 ∧
      (zpl_mmap zr hr zp).2.1 = zp) ∧
    (zr = 0 → hr ≠ 0 →
      (zpl_mmap zr hr zp).1 = hr ∧
      MmapEv.setMapped ∉ (zpl_mmap zr hr zp).2.2 ∧
      (zpl_mmap zr hr zp).2.1 = zp) ∧
    (zr = 0 → hr = 0 →
      (zpl_mmap zr hr zp).1 = 0 ∧
      (zpl_mmap zr hr zp).2.1.z_is_mapped = true ∧
      (zpl_mmap zr hr zp).2.2.indexOf MmapEv.mutexEnter <
        (zpl_mmap zr hr zp).2.2.indexOf MmapEv.setMapped ∧
      (zpl_mmap zr hr zp).2.2.indexOf MmapEv.setMapped <
        (zpl_mmap zr hr zp).2.2.indexOf MmapEv.mutexExit) ∧
    (zp.z_is_mapped = true → (zpl_mmap zr hr zp).2.1.z_is_mapped = true) := by
  by_cases hz : zr = 0
  · subst hz
    by_cases hh : hr = 0
    · subst hh
      refine ⟨fun hc => absurd rfl hc, fun _ hc => absurd rfl hc,
        fun _ _ => ?_, fun _ => ?_⟩
      · refine ⟨?_, ?_, ?_, ?_⟩ <;> simp [zpl_mmap]
      · simp [zpl_mmap]
    · refine ⟨fun hc => absurd rfl hc, fun _ _ => ?_,
        fun _ hc => absurd hc hh, fun hm => ?_⟩
      · refine ⟨?_, ?_, ?_⟩ <;> simp [zpl_mmap, hh]
      · simp [zpl_mmap, hh, hm]
  · have hn : -zr ≠ 0 := neg_ne_zero.mpr hz
    refine ⟨fun _ => ?_, fun hc => absurd hc hz, fun hc => absurd hc hz,
      fun hm => ?_⟩
    · refine ⟨?_, ?_, ?_, ?_⟩ <;> simp [zpl_mmap, hn]
    · simp [zpl_mmap, hn, hm]

/-- Witness for C8: engine failure 5 aborts before host setup; a clean run
from the unmapped state sets the flag. -/
theorem spec_c8_mmap_engine_first_flag_monotone_witness :
    (zpl_mmap 5 0 { z_is_mapped := false }).1 = -5 ∧
    MmapEv.hostMmap ∉ (zpl_mmap 5 0 { z_is_mapped := false }).2.2 ∧
    (zpl_mmap 0 0 { z_is_mapped := false }).2.1.z_is_mapped = true := by
  have h5 := (spec_c8_mmap_engine_first_flag_monotone 5 0
    { z_is_mapped := false }).1 (by decide)
  have h0 := (spec_c8_mmap_engine_first_flag_monotone 0 0
    { z_is_mapped := false }).2.2.1 rfl rfl
  exact ⟨h5.1, h5.2.1, h0.2.1⟩

/-- Claim C9: `zpl_ioctl` dispatches the two recognized command codes to the
get-flags and set-flags paths and returns `-ENOTTY` ("operation not
supported") for every other code. -/
theorem spec_c9_ioctl_dispatch (cmd : Nat) (genv : GetflagsEnv) (flags : Nat)
    (senv : SetflagsEnv) (obj : FileObjState) :
    (cmd = ZFS_IOC_GETFLAGS →
      zpl_ioctl cmd genv flags senv obj = (zpl_ioctl_getflags genv).1) ∧
    (cmd = ZFS_IOC_SETFLAGS →
      zpl_ioctl cmd genv flags senv obj = (zpl_ioctl_setflags flags senv obj).1) ∧
    (cmd ≠ ZFS_IOC_GETFLAGS → cmd ≠ ZFS_IOC_SETFLAGS →
      zpl_ioctl cmd genv flags senv obj = -ENOTTY) := by
  refine ⟨fun h => ?_, fun h => ?_, fun h1 h2 => ?_⟩
  · subst h
    simp [zpl_ioctl]
  · subst h
    rw [zpl_ioctl, if_neg (by decide), if_pos rfl]
  · simp [zpl_ioctl, h1, h2]

/-- Witness for C9: command code 999 is rejected with `-ENOTTY`; the
get-flags code dispatches to the get-flags path. -/
theorem spec_c9_ioctl_dispatch_witness :
    zpl_ioctl 999 { zfs_getflags_ret := 0, zfs_flags := 0, copy_to_user_ret := 0 }
      0 { copy_from_user_ret := 0, is_owner_or_cap := true, zfs_setattr_ret := 0 }
      { zfs_flags := 0 } = -ENOTTY ∧
    zpl_ioctl ZFS_IOC_GETFLAGS
      { zfs_getflags_ret := 0, zfs_flags := 0, copy_to_user_ret := 0 }
      0 { copy_from_user_ret := 0, is_owner_or_cap := true, zfs_setattr_ret := 0 }
      { zfs_flags := 0 } =
      (zpl_ioctl_getflags
        { zfs_getflags_ret := 0, zfs_flags := 0, copy_to_user_ret := 0 }).1 := by
  constructor
  · exact (spec_c9_ioctl_dispatch 999
      { zfs_getflags_ret := 0, zfs_flags := 0, copy_to_user_ret := 0 } 0
      { copy_from_user_ret := 0, is_owner_or_cap := true, zfs_setattr_ret := 0 }
      { zfs_flags := 0 }).2.2 (by decide) (by decide)
  · exact (spec_c9_ioctl_dispatch ZFS_IOC_GETFLAGS
      { zfs_getflags_ret := 0, zfs_flags := 0, copy_to_user_ret := 0 } 0
      { copy_from_user_ret := 0, is_owner_or_cap := true, zfs_setattr_ret := 0 }
      { zfs_flags := 0 }).1 rfl

/-- Claim C10: in `zpl_ioctl_getflags`, an engine failure comes back as the
negative error code; a `copy_to_user` failure comes back as that primitive's
raw positive not-copied count, so by sign alone it is indistinguishable from
the 0 returned on success. -/
theorem spec_c10_getflags_copy_failure_positive (env : GetflagsEnv) :
    (0 < env.zfs_getflags_ret →
      (zpl_ioctl_getflags env).1 = -env.zfs_getflags_ret ∧
      (zpl_ioctl_getflags env).1 < 0) ∧
    (env.zfs_getflags_ret = 0 →
      (zpl_ioctl_getflags env).1 = (env.copy_to_user_ret : Int) ∧
      0 ≤ (zpl_ioctl_getflags env).1 ∧
      (env.copy_to_user_ret ≠ 0 → 0 < (zpl_ioctl_getflags env).1) ∧
      (env.copy_to_user_ret = 0 → (zpl_ioctl_getflags env).1 = 0)) := by
  constructor
  · intro h
    have hn : -env.zfs_getflags_ret ≠ 0 := by omega
    constructor
    · simp [zpl_ioctl_getflags, hn]
    · simp [zpl_ioctl_getflags, hn]
      omega
  · intro h
    refine ⟨?_, ?_, ?_, ?_⟩ <;> simp [zpl_ioctl_getflags, h] <;> omega

/-- Witness for C10: engine failure 5 gives -5; engine success with 4 bytes
left uncopied gives the positive raw count 4. -/
theorem spec_c10_getflags_copy_failure_positive_witness :
    (zpl_ioctl_getflags
      { zfs_getflags_ret := 5, zfs_flags := 0, copy_to_user_ret := 0 }).1 = -5 ∧
    (zpl_ioctl_getflags
      { zfs_getflags_ret := 0, zfs_flags := 0, copy_to_user_ret := 4 }).1 = 4 ∧
    0 < (zpl_ioctl_getflags
      { zfs_getflags_ret := 0, zfs_flags := 0, copy_to_user_ret := 4 }).1 := by
  have h5 := (spec_c10_getflags_copy_failure_positive
    { zfs_getflags_ret := 5, zfs_flags := 0, copy_to_user_ret := 0 }).1 (by decide)
  have h4 := (spec_c10_getflags_copy_failure_positive
    { zfs_getflags_ret := 0, zfs_flags := 0, copy_to_user_ret := 4 }).2 rfl
  exact ⟨h5.1, by simpa using h4.1, h4.2.2.1 (by decide)⟩
